import Mathlib

/-!
# Verification of the Math-Date scoring policy and swipe persistence layer

Shallow embedding of the scoring module (`calculateNewScore`,
`calculateShowProbability`) and of the relevant parts of the server
persistence layer (`updateScore`, `likeProfile`, `dislikeProfile` in
`server/storage.ts`).  Scores are modelled as rationals; the database is a
finite list of profiles together with the `likes` and `matches` tables.
-/

namespace MathDate

/-- The like boost from the scoring module:
`const boost = Math.max(0.5, 3 * (1 - (normalizedScore / 100)))`. -/
def boost (normalizedScore : ℚ) : ℚ :=
  max 0.5 (3 * (1 - normalizedScore / 100))

/-- The dislike penalty from the scoring module:
`const penalty = Math.max(0.3, 2 * (normalizedScore / 100))`. -/
def penalty (normalizedScore : ℚ) : ℚ :=
  max 0.3 (2 * (normalizedScore / 100))

/-- `calculateNewScore` from the shared scoring module: the input score is
first normalized into `[0,100]`, then the boost (for a like) or the penalty
(for a dislike) is applied, clamped back into `[0,100]`. -/
def calculateNewScore (currentScore : ℚ) (isLiked : Bool) : ℚ :=
  let normalizedScore := max 0 (min 100 currentScore)
  if isLiked then
    min 100 (normalizedScore + boost normalizedScore)
  else
    max 0 (normalizedScore - penalty normalizedScore)

/-- `calculateShowProbability` from the shared scoring module:
`max(0.2, 0.8 - (score/100)^2 * 0.6)`. -/
def calculateShowProbability (score : ℚ) : ℚ :=
  let baseline : ℚ := 0.8
  let scoreFactor := (score / 100) ^ 2 * 0.6
  max 0.2 (baseline - scoreFactor)

/-- The score computation inside `DatabaseStorage.updateScore`
(`server/storage.ts`): identical boost/penalty formulas, but applied to the
raw stored score with no normalization step. -/
def updateScoreCalc (score : ℚ) (isLiked : Bool) : ℚ :=
  if isLiked then
    min 100 (score + boost score)
  else
    max 0 (score - penalty score)

/-- A row of the `profiles` table, restricted to the fields the swipe and
scoring paths touch. -/
structure Profile where
  id : Nat
  score : ℚ
  deriving Repr, DecidableEq

/-- The database state seen by the swipe endpoints: the `profiles` table,
the `likes` table (rows `(likerId, likedId)`) and the `matches` table
(rows `(profileId1, profileId2)`). -/
structure DB where
  profiles : List Profile
  likes : List (Nat × Nat)
  matchRows : List (Nat × Nat)
  deriving Repr, DecidableEq

/-- `select().from(profiles).where(eq(profiles.id, id))`, first row. -/
def findProfile (db : DB) (id : Nat) : Option Profile :=
  db.profiles.find? (fun p => p.id == id)

/-- `update(profiles).set({score}).where(eq(profiles.id, profileId))`. -/
def setScore (rows : List Profile) (profileId : Nat) (newScore : ℚ) :
    List Profile :=
  rows.map (fun p => if p.id == profileId then { p with score := newScore } else p)

/-- The stored score of a profile, if the profile exists. -/
def getScore (db : DB) (id : Nat) : Option ℚ :=
  (findProfile db id).map (fun p => p.score)

/-- `DatabaseStorage.updateScore`: reads the profile row, throws
`"Profile not found"` when it is absent, else computes the new score from the
stored score and writes it back.  The returned pair is (database state after
the call, thrown error or returned score). -/
def updateScore (db : DB) (profileId : Nat) (isLiked : Bool) :
    DB × Except String ℚ :=
  match findProfile db profileId with
  | none => (db, Except.error "Profile not found")
  | some profile =>
      let newScore := updateScoreCalc profile.score isLiked
      ({ db with profiles := setScore db.profiles profileId newScore },
       Except.ok newScore)

/-- `DatabaseStorage.likeProfile`: inserts the like row, updates the liked
profile's score, then looks for a mutual like row
(`likerId = likedId ∧ likedId = likerId`) and, if found, inserts a match.
Returns (database state, thrown error or `isMatch`). -/
def likeProfile (db : DB) (likerId likedId : Nat) :
    DB × Except String Bool :=
  let db1 : DB := { db with likes := db.likes ++ [(likerId, likedId)] }
  match updateScore db1 likedId true with
  | (db2, Except.error e) => (db2, Except.error e)
  | (db2, Except.ok _) =>
      match db2.likes.find? (fun l => l.1 == likedId && l.2 == likerId) with
      | some _ =>
          ({ db2 with matchRows := db2.matchRows ++ [(likerId, likedId)] },
           Except.ok true)
      | none => (db2, Except.ok false)

/-- `DatabaseStorage.dislikeProfile`: inserts a row into the *same* `likes`
table (the source stores a dislike with no distinguishing indicator), then
updates the disliked profile's score. -/
def dislikeProfile (db : DB) (likerId dislikedId : Nat) :
    DB × Except String Unit :=
  let db1 : DB := { db with likes := db.likes ++ [(likerId, dislikedId)] }
  match updateScore db1 dislikedId false with
  | (db2, Except.error e) => (db2, Except.error e)
  | (db2, Except.ok _) => (db2, Except.ok ())

/-! ## Helper lemmas -/

/-- Normalizing an already-normalized score is the identity. -/
lemma clamp_clamp (s : ℚ) :
    max 0 (min 100 (max 0 (min 100 s))) = max 0 (min 100 s) := by
  rcases le_total s 0 with h | h
  · rw [min_eq_right (by linarith : s ≤ (100:ℚ))]
    rw [max_eq_left h, min_eq_right (by norm_num : (0:ℚ) ≤ 100),
      max_eq_left le_rfl]
  · rcases le_total s 100 with h2 | h2
    · rw [min_eq_right h2, max_eq_right h, min_eq_right h2, max_eq_right h]
    · rw [min_eq_left h2, max_eq_right (by norm_num : (0:ℚ) ≤ 100),
        min_eq_left le_rfl, max_eq_right (by norm_num : (0:ℚ) ≤ 100)]

/-- A score already in `[0,100]` is unchanged by the normalization. -/
lemma clamp_eq_self {s : ℚ} (h0 : 0 ≤ s) (h1 : s ≤ 100) :
    max 0 (min 100 s) = s := by
  rw [min_eq_right h1, max_eq_right h0]

lemma boost_pos (s : ℚ) : 0 < boost s :=
  lt_of_lt_of_le (by norm_num) (le_max_left _ _)

lemma penalty_pos (s : ℚ) : 0 < penalty s :=
  lt_of_lt_of_le (by norm_num) (le_max_left _ _)

/-- For an in-range score, a like never decreases the score. -/
lemma calculateNewScore_liked_ge {s : ℚ} (h0 : 0 ≤ s) (h1 : s ≤ 100) :
    s ≤ calculateNewScore s true := by
  simp only [calculateNewScore, if_pos, clamp_eq_self h0 h1]
  exact le_min h1 (by linarith [boost_pos s])

lemma calculateNewScore_liked_le (s : ℚ) :
    calculateNewScore s true ≤ 100 := by
  simp only [calculateNewScore, if_pos]
  exact min_le_left _ _

/-- For an in-range score, a dislike never increases the score. -/
lemma calculateNewScore_disliked_le {s : ℚ} (h0 : 0 ≤ s) (h1 : s ≤ 100) :
    calculateNewScore s false ≤ s := by
  simp only [calculateNewScore, Bool.false_eq_true, if_neg, clamp_eq_self h0 h1]
  exact max_le h0 (by linarith [penalty_pos s])

lemma calculateNewScore_disliked_ge (s : ℚ) :
    0 ≤ calculateNewScore s false := by
  simp only [calculateNewScore, Bool.false_eq_true, if_neg]
  exact le_max_left _ _

/-- `setScore` leaves the looked-up row of every other profile unchanged. -/
lemma find_setScore_ne (rows : List Profile) (B i : Nat) (s : ℚ)
    (h : i ≠ B) :
    (setScore rows B s).find? (fun p => p.id == i)
      = rows.find? (fun p => p.id == i) := by
  induction rows with
  | nil => rfl
  | cons p t ih =>
    by_cases hB : p.id = B
    · have hcons : setScore (p :: t) B s
          = ({ p with score := s } : Profile) :: setScore t B s := by
        simp [setScore, hB]
      have hi : ¬ p.id = i := by
        rw [hB]; exact fun hc => h hc.symm
      rw [hcons,
        List.find?_cons_of_neg (a := ({ p with score := s } : Profile)) _
          (by simp [hi]),
        List.find?_cons_of_neg (a := p) _ (by simp [hi]), ih]
    · have hcons : setScore (p :: t) B s = p :: setScore t B s := by
        simp [setScore, hB]
      rw [hcons]
      by_cases hi : p.id = i
      · rw [List.find?_cons_of_pos (a := p) _ (by simp [hi]),
          List.find?_cons_of_pos (a := p) _ (by simp [hi])]
      · rw [List.find?_cons_of_neg (a := p) _ (by simp [hi]),
          List.find?_cons_of_neg (a := p) _ (by simp [hi]), ih]

/-- `setScore` sets the looked-up score of the targeted profile. -/
lemma find_setScore_eq (rows : List Profile) (B : Nat) (s : ℚ) :
    (setScore rows B s).find? (fun p => p.id == B)
      = (rows.find? (fun p => p.id == B)).map
          (fun p => { p with score := s }) := by
  induction rows with
  | nil => rfl
  | cons p t ih =>
    by_cases hB : p.id = B
    · have hcons : setScore (p :: t) B s
          = ({ p with score := s } : Profile) :: setScore t B s := by
        simp [setScore, hB]
      rw [hcons,
        List.find?_cons_of_pos (a := ({ p with score := s } : Profile)) _
          (by simp [hB]),
        List.find?_cons_of_pos (a := p) _ (by simp [hB])]
      rfl
    · have hcons : setScore (p :: t) B s = p :: setScore t B s := by
        simp [setScore, hB]
      rw [hcons,
        List.find?_cons_of_neg (a := p) _ (by simp [hB]),
        List.find?_cons_of_neg (a := p) _ (by simp [hB]), ih]

/-- On the success path, `updateScore` rewrites only the target profile. -/
lemma updateScore_ok {db : DB} {id : Nat} {b : Bool} {p : Profile}
    (hp : findProfile db id = some p) :
    updateScore db id b
      = ({ db with profiles :=
            setScore db.profiles id (updateScoreCalc p.score b) },
         Except.ok (updateScoreCalc p.score b)) := by
  simp [updateScore, hp]

lemma getScore_updateScore_ne {db : DB} {id : Nat} {b : Bool} {p : Profile}
    (hp : findProfile db id = some p) {i : Nat} (hi : i ≠ id) :
    getScore (updateScore db id b).1 i = getScore db i := by
  rw [updateScore_ok hp]
  simp only [getScore, findProfile]
  rw [find_setScore_ne _ _ _ _ hi]

lemma getScore_updateScore_eq {db : DB} {id : Nat} {b : Bool} {p : Profile}
    (hp : findProfile db id = some p) :
    getScore (updateScore db id b).1 id = some (updateScoreCalc p.score b) := by
  rw [updateScore_ok hp]
  simp only [getScore, findProfile]
  rw [find_setScore_eq]
  simp only [findProfile] at hp
  simp [hp]

/-- Unfolding `calculateNewScore` on a like at an in-range score. -/
lemma calculateNewScore_liked_eq {s : ℚ} (h0 : 0 ≤ s) (h1 : s ≤ 100) :
    calculateNewScore s true = min 100 (s + boost s) := by
  simp only [calculateNewScore, if_pos, clamp_eq_self h0 h1]

/-- Unfolding `calculateNewScore` on a dislike at an in-range score. -/
lemma calculateNewScore_disliked_eq {s : ℚ} (h0 : 0 ≤ s) (h1 : s ≤ 100) :
    calculateNewScore s false = max 0 (s - penalty s) := by
  simp [calculateNewScore, clamp_eq_self h0 h1]

/-- When the target profile exists, `likeProfile` changes the `profiles`
table exactly by rewriting the target's score. -/
lemma likeProfile_state (db : DB) (A B : Nat) (p : Profile)
    (hp : findProfile db B = some p) :
    (likeProfile db A B).1.profiles
      = setScore db.profiles B (updateScoreCalc p.score true) := by
  have hp1 : findProfile { db with likes := db.likes ++ [(A, B)] } B = some p :=
    hp
  simp only [likeProfile]
  rw [updateScore_ok hp1]
  dsimp only
  cases hf : List.find? (fun l => l.1 == B && l.2 == A)
      (db.likes ++ [(A, B)]) with
  | none => simp [hf]
  | some v => simp [hf]

/-- When the target profile exists, `dislikeProfile` changes the `profiles`
table exactly by rewriting the target's score. -/
lemma dislikeProfile_state (db : DB) (A B : Nat) (p : Profile)
    (hp : findProfile db B = some p) :
    (dislikeProfile db A B).1.profiles
      = setScore db.profiles B (updateScoreCalc p.score false) := by
  have hp1 : findProfile { db with likes := db.likes ++ [(A, B)] } B = some p :=
    hp
  simp only [dislikeProfile]
  rw [updateScore_ok hp1]

/-! ## Claim theorems -/

/-- C1: `calculateNewScore` defensively clamps an out-of-range current score
into `[0,100]` before applying the update: on every input it agrees with the
clamped input, and in particular `calculateNewScore 150 disliked`
`= calculateNewScore 100 disliked = 98` and `calculateNewScore (-10) liked`
`= calculateNewScore 0 liked = 3`. -/
theorem calculateNewScore_clamps_input (s : ℚ) (b : Bool) :
    calculateNewScore s b = calculateNewScore (max 0 (min 100 s)) b
      ∧ calculateNewScore 150 false = 98 ∧ calculateNewScore 100 false = 98
      ∧ calculateNewScore (-10) true = 3 ∧ calculateNewScore 0 true = 3 := by
  refine ⟨?_, ?_, ?_, ?_, ?_⟩
  · simp only [calculateNewScore, clamp_clamp]
  · norm_num [calculateNewScore, penalty]
  · norm_num [calculateNewScore, penalty]
  · norm_num [calculateNewScore, boost]
  · norm_num [calculateNewScore, boost]

/-- C2: on any score in `[0,100]`, a like never decreases the score and the
result is at most 100; a dislike never increases the score and the result is
at least 0. -/
theorem calculateNewScore_bounded (s : ℚ) (h0 : 0 ≤ s) (h1 : s ≤ 100) :
    s ≤ calculateNewScore s true ∧ calculateNewScore s true ≤ 100 ∧
    calculateNewScore s false ≤ s ∧ 0 ≤ calculateNewScore s false :=
  ⟨calculateNewScore_liked_ge h0 h1, calculateNewScore_liked_le s,
   calculateNewScore_disliked_le h0 h1, calculateNewScore_disliked_ge s⟩

/-- Witness for C2 at the concrete score 50. -/
theorem calculateNewScore_bounded_witness :
    (50:ℚ) ≤ calculateNewScore 50 true ∧ calculateNewScore 50 true ≤ 100 ∧
    calculateNewScore 50 false ≤ 50 ∧ (0:ℚ) ≤ calculateNewScore 50 false :=
  calculateNewScore_bounded 50 (by norm_num) (by norm_num)

/-- C3 counterexample: the shared module's `calculateNewScore` and the score
computation inside the server's `updateScore` do *not* agree on every numeric
input: at the out-of-range score 150 with a dislike, the server computation
(which never normalizes the stored score) yields 147 while the shared module
yields 98. -/
theorem scoring_duplication_counterexample :
    calculateNewScore 150 false ≠ updateScoreCalc 150 false ∧
    calculateNewScore 150 false = 98 ∧ updateScoreCalc 150 false = 147 := by
  refine ⟨?_, ?_, ?_⟩ <;>
    norm_num [calculateNewScore, updateScoreCalc, penalty]

/-- C3 amended: the two copies of the scoring logic agree on every score in
`[0,100]` (the only difference is the defensive normalization step, which is
the identity there). -/
theorem scoring_duplication_agrees_in_range (s : ℚ) (b : Bool)
    (h0 : 0 ≤ s) (h1 : s ≤ 100) :
    calculateNewScore s b = updateScoreCalc s b := by
  simp only [calculateNewScore, updateScoreCalc, clamp_eq_self h0 h1]

/-- Witness for the amended C3 at the concrete score 70 with a like. -/
theorem scoring_duplication_agrees_in_range_witness :
    calculateNewScore 70 true = updateScoreCalc 70 true :=
  scoring_duplication_agrees_in_range 70 true (by norm_num) (by norm_num)

/-- C5: over `[0,100]` the like boost is antitone (diminishing returns) and
the dislike penalty is monotone (floor effect): for `s1 < s2`, the boost at
`s1` is at least the boost at `s2` and the penalty at `s1` is at most the
penalty at `s2`. -/
theorem boost_antitone_penalty_monotone (s1 s2 : ℚ) (h0 : 0 ≤ s1)
    (h12 : s1 < s2) (h2 : s2 ≤ 100) :
    boost s2 ≤ boost s1 ∧ penalty s1 ≤ penalty s2 :=
  ⟨max_le_max le_rfl (by linarith),
   max_le_max le_rfl (by linarith)⟩

/-- Witness for C5 at the concrete pair (10, 90). -/
theorem boost_antitone_penalty_monotone_witness :
    boost 90 ≤ boost 10 ∧ penalty 10 ≤ penalty 90 :=
  boost_antitone_penalty_monotone 10 90 (by norm_num) (by norm_num)
    (by norm_num)

/-- C6: `calculateShowProbability` maps every score in `[0,100]` into
`[0.2, 0.8]`, with the literal values 0.8 at score 0, 0.2 at score 100 and
0.65 at score 50. -/
theorem calculateShowProbability_range :
    (∀ s : ℚ, 0 ≤ s → s ≤ 100 →
      0.2 ≤ calculateShowProbability s ∧ calculateShowProbability s ≤ 0.8) ∧
    calculateShowProbability 0 = 0.8 ∧ calculateShowProbability 100 = 0.2 ∧
    calculateShowProbability 50 = 0.65 := by
  refine ⟨fun s h0 h1 => ⟨le_max_left _ _, ?_⟩, ?_, ?_, ?_⟩
  · simp only [calculateShowProbability]
    refine max_le (by norm_num) ?_
    have hx : 0 ≤ (s / 100) ^ 2 * 0.6 := by positivity
    linarith
  · norm_num [calculateShowProbability]
  · norm_num [calculateShowProbability]
  · norm_num [calculateShowProbability]

/-- Witness for C6 at the concrete score 50. -/
theorem calculateShowProbability_range_witness :
    (0.2:ℚ) ≤ calculateShowProbability 50 ∧
    calculateShowProbability 50 ≤ 0.8 :=
  calculateShowProbability_range.1 50 (by norm_num) (by norm_num)

/-- C7: `calculateShowProbability` is monotonically non-increasing on
`[0,100]`. -/
theorem calculateShowProbability_antitone (s1 s2 : ℚ) (h0 : 0 ≤ s1)
    (h12 : s1 ≤ s2) (h2 : s2 ≤ 100) :
    calculateShowProbability s2 ≤ calculateShowProbability s1 := by
  simp only [calculateShowProbability]
  refine max_le_max le_rfl ?_
  have h : (s1 / 100 : ℚ) ^ 2 ≤ (s2 / 100) ^ 2 :=
    pow_le_pow_left₀ (div_nonneg h0 (by norm_num)) (by linarith) 2
  linarith

/-- Witness for C7 at the concrete pair (20, 80). -/
theorem calculateShowProbability_antitone_witness :
    calculateShowProbability 80 ≤ calculateShowProbability 20 :=
  calculateShowProbability_antitone 20 80 (by norm_num) (by norm_num)
    (by norm_num)

/-- C8 counterexample: `calculateNewScore` *is* idempotent at the boundary
score 100 with a like (both one and two applications yield 100), refuting
the universally quantified non-idempotence claim. -/
theorem calculateNewScore_idempotent_at_top :
    calculateNewScore (calculateNewScore 100 true) true
      = calculateNewScore 100 true := by
  norm_num [calculateNewScore, boost]

/-- C8 amended: away from the absorbing bounds, `calculateNewScore` is not
idempotent: whenever one application of a like stays below 100, a second like
changes the value again, and whenever one application of a dislike stays
above 0, a second dislike changes the value again. -/
theorem calculateNewScore_not_idempotent_interior (s : ℚ) (h0 : 0 ≤ s)
    (h1 : s ≤ 100) :
    (calculateNewScore s true < 100 →
      calculateNewScore (calculateNewScore s true) true
        ≠ calculateNewScore s true) ∧
    (0 < calculateNewScore s false →
      calculateNewScore (calculateNewScore s false) false
        ≠ calculateNewScore s false) := by
  constructor
  · intro hlt
    have hr0 : 0 ≤ calculateNewScore s true :=
      le_trans h0 (calculateNewScore_liked_ge h0 h1)
    have hgt : calculateNewScore s true
        < calculateNewScore (calculateNewScore s true) true := by
      rw [calculateNewScore_liked_eq hr0 (calculateNewScore_liked_le s)]
      exact lt_min hlt (by linarith [boost_pos (calculateNewScore s true)])
    exact ne_of_gt hgt
  · intro hgt0
    have hr1 : calculateNewScore s false ≤ 100 :=
      le_trans (calculateNewScore_disliked_le h0 h1) h1
    have hlt : calculateNewScore (calculateNewScore s false) false
        < calculateNewScore s false := by
      rw [calculateNewScore_disliked_eq (calculateNewScore_disliked_ge s) hr1]
      exact max_lt hgt0
        (by linarith [penalty_pos (calculateNewScore s false)])
    exact ne_of_lt hlt

/-- Witness for the amended C8 at the concrete score 50. -/
theorem calculateNewScore_not_idempotent_interior_witness :
    calculateNewScore (calculateNewScore 50 true) true
      ≠ calculateNewScore 50 true ∧
    calculateNewScore (calculateNewScore 50 false) false
      ≠ calculateNewScore 50 false :=
  ⟨(calculateNewScore_not_idempotent_interior 50 (by norm_num)
      (by norm_num)).1 (by norm_num [calculateNewScore, boost]),
   (calculateNewScore_not_idempotent_interior 50 (by norm_num)
      (by norm_num)).2 (by norm_num [calculateNewScore, penalty])⟩

/-- C4: the code does *not* restrict matches to mutual likes.  Failing
input: profile 2 merely dislikes profile 1 (stored in the `likes` table with
no distinguishing indicator), then profile 1 likes profile 2 — `likeProfile`
finds the dislike row in the mutual-like lookup and reports a match. -/
theorem likeProfile_match_after_mere_dislike :
    (dislikeProfile ⟨[⟨1, 70⟩, ⟨2, 70⟩], [], []⟩ 2 1).1.likes = [(2, 1)] ∧
    (likeProfile (dislikeProfile ⟨[⟨1, 70⟩, ⟨2, 70⟩], [], []⟩ 2 1).1 1 2).2
      = Except.ok true :=
  ⟨rfl, rfl⟩

/-- C9: a swipe by profile `A` at profile `B` rewrites `B`'s stored score
(through the score computation of `updateScore`) and leaves the stored score
of every other profile — in particular `A`'s own — unchanged, both for a
like and for a dislike. -/
theorem swipe_updates_only_target (db : DB) (A B : Nat) (p : Profile)
    (hp : findProfile db B = some p) (hAB : A ≠ B) :
    (getScore (likeProfile db A B).1 B = some (updateScoreCalc p.score true) ∧
     ∀ i, i ≠ B → getScore (likeProfile db A B).1 i = getScore db i) ∧
    (getScore (dislikeProfile db A B).1 B
        = some (updateScoreCalc p.score false) ∧
     ∀ i, i ≠ B → getScore (dislikeProfile db A B).1 i = getScore db i) := by
  have hfind : db.profiles.find? (fun q => q.id == B) = some p := hp
  refine ⟨⟨?_, fun i hi => ?_⟩, ?_, fun i hi => ?_⟩
  · simp only [getScore, findProfile]
    rw [likeProfile_state db A B p hp, find_setScore_eq, hfind]
    rfl
  · simp only [getScore, findProfile]
    rw [likeProfile_state db A B p hp, find_setScore_ne _ _ _ _ hi]
  · simp only [getScore, findProfile]
    rw [dislikeProfile_state db A B p hp, find_setScore_eq, hfind]
    rfl
  · simp only [getScore, findProfile]
    rw [dislikeProfile_state db A B p hp, find_setScore_ne _ _ _ _ hi]

/-- Witness for C9: profile 1 likes profile 2; profile 1's own stored score
is untouched and profile 2's becomes the computed new score. -/
theorem swipe_updates_only_target_witness :
    (getScore (likeProfile ⟨[⟨1, 70⟩, ⟨2, 50⟩], [], []⟩ 1 2).1 2
        = some (updateScoreCalc 50 true)) ∧
    getScore (likeProfile ⟨[⟨1, 70⟩, ⟨2, 50⟩], [], []⟩ 1 2).1 1
      = getScore ⟨[⟨1, 70⟩, ⟨2, 50⟩], [], []⟩ 1 :=
  ⟨((swipe_updates_only_target ⟨[⟨1, 70⟩, ⟨2, 50⟩], [], []⟩ 1 2 ⟨2, 50⟩ rfl
      (by decide)).1).1,
   ((swipe_updates_only_target ⟨[⟨1, 70⟩, ⟨2, 50⟩], [], []⟩ 1 2 ⟨2, 50⟩ rfl
      (by decide)).1).2 1 (by decide)⟩

/-- C10: `updateScore` throws `"Profile not found"` exactly when the profile
is absent, in which case the database is unchanged; when the profile exists
it returns the newly persisted score without raising, and that score is what
is then stored for the profile. -/
theorem updateScore_contract (db : DB) (id : Nat) (b : Bool) :
    (findProfile db id = none →
      updateScore db id b = (db, Except.error "Profile not found")) ∧
    (∀ p, findProfile db id = some p →
      (updateScore db id b).2 = Except.ok (updateScoreCalc p.score b) ∧
      getScore (updateScore db id b).1 id
        = some (updateScoreCalc p.score b)) := by
  constructor
  · intro h
    simp [updateScore, h]
  · intro p hp
    refine ⟨?_, getScore_updateScore_eq hp⟩
    rw [updateScore_ok hp]

/-- Witness for C10: on a one-profile database, updating the score of the
missing profile 2 throws and leaves the state unchanged, while updating
profile 1 returns the computed score. -/
theorem updateScore_contract_witness :
    updateScore ⟨[⟨1, 70⟩], [], []⟩ 2 true
        = (⟨[⟨1, 70⟩], [], []⟩, Except.error "Profile not found") ∧
    (updateScore ⟨[⟨1, 70⟩], [], []⟩ 1 true).2
        = Except.ok (updateScoreCalc 70 true) :=
  ⟨(updateScore_contract ⟨[⟨1, 70⟩], [], []⟩ 2 true).1 rfl,
   ((updateScore_contract ⟨[⟨1, 70⟩], [], []⟩ 1 true).2 ⟨1, 70⟩ rfl).1⟩

end MathDate
